import Mathlib

/-!
# Verification of the ingestion/processing pipeline

Shallow embedding of the two services of the repository:

* `src/api/main.py` — the Gateway (`normalize_to_internal_format`, `ingest`):
  validates structured (JSON) and raw-text submissions, normalizes them to the
  canonical record, and publishes to the bus.
* `src/worker/main.py` — the Consumer (`simulate_heavy_processing`,
  `save_to_firestore`, `process_pubsub`): decodes bus deliveries, redacts
  phone-number-like substrings, and writes a processed document under
  a tenant-scoped key.

External effects are made explicit: the publish is the `published` field of the
Gateway outcome, the Firestore write is the `write` field of the Consumer
outcome, and the two wall-clock reads (`datetime.utcnow()`) are passed as
string parameters.  `time.sleep` affects wall-clock time only, never the
returned value, and is omitted.
-/

set_option autoImplicit false

namespace MemMach

/-! ## The worker's redaction regex

`simulate_heavy_processing` applies
`re.sub(r'\b\d{3}[-.\s]?\d{3,4}[-.\s]?\d{4}\b', '[REDACTED]', text)`.
We embed Python `re` semantics for this concrete pattern: scan left to right;
at each position where a match of the whole pattern starts (leftmost match),
replace it by the marker and resume after it.  Backtracking priority for the
greedy `?` and `{3,4}` pieces determines which extent is matched first.
The character classes (`\d` digits, `\w` word characters, `\s` whitespace)
are embedded as the restrictions of Python's Unicode classes to the ASCII
range, on which they are exact: every code point below U+0080 is classified
exactly as Python classifies it.  All concrete inputs in the claims are
ASCII, and the one universal statement about unmatched inputs (claim C7) is
stated for ASCII strings, where the embedding coincides with `re`. -/

/-- Python `\d` restricted to the ASCII range: a decimal digit.  This is
exact below U+0080 (no other ASCII code point is in Unicode category Nd);
Python's Unicode `\d` additionally matches non-ASCII decimal digits. -/
def isDigitChar (c : Char) : Bool :=
  c.isDigit

/-- Python `\w` restricted to the ASCII range: letter, digit or underscore;
determines `\b`.  Exact below U+0080; Python's Unicode `\w` additionally
matches non-ASCII word characters. -/
def isWordChar (c : Char) : Bool :=
  c.isAlpha || c.isDigit || c = '_'

/-- The separator class `[-.\s]` of the pattern, with `\s` restricted to
the ASCII range: `\t`, `\n`, `\v`, `\f`, `\r`, the file/group/record/unit
separators U+001C through U+001F, and the space.  Exact below U+0080;
Python's Unicode `\s` additionally matches non-ASCII whitespace such as
U+0085 and U+00A0. -/
def isSepChar (c : Char) : Bool :=
  c = '-' || c = '.' || c = ' ' || c = '\t' || c = '\n' || c = '\r' ||
    c = '\x0b' || c = '\x0c' ||
    c = '\x1c' || c = '\x1d' || c = '\x1e' || c = '\x1f'

/-- Consume exactly `n` digits, returning the rest of the input. -/
def dropDigits : Nat → List Char → Option (List Char)
  | 0, l => some l
  | _ + 1, [] => none
  | n + 1, c :: l => if isDigitChar c then dropDigits n l else none

/-- Consume one separator character when `b` is true, nothing otherwise
(the two expansions of `[-.\s]?`). -/
def dropSep : Bool → List Char → Option (List Char)
  | false, l => some l
  | true, [] => none
  | true, c :: l => if isSepChar c then some l else none

/-- The trailing `\b`: since the previous character is a digit, the boundary
holds iff the input ends or continues with a non-word character. -/
def endBoundary : List Char → Bool
  | [] => true
  | c :: _ => !isWordChar c

/-- One expansion of the pattern after the leading boundary:
`\d{3}`, then a separator iff `s1`, then `n2` digits, then a separator iff
`s2`, then `\d{4}`, then the trailing `\b`.  Returns the remaining input. -/
def tryAlt (s1 : Bool) (n2 : Nat) (s2 : Bool) (l : List Char) : Option (List Char) :=
  (dropDigits 3 l).bind fun l1 =>
  (dropSep s1 l1).bind fun l2 =>
  (dropDigits n2 l2).bind fun l3 =>
  (dropSep s2 l3).bind fun l4 =>
  (dropDigits 4 l4).bind fun l5 =>
  if endBoundary l5 then some l5 else none

/-- Match of the pattern body at the head of `l`, trying the greedy
expansions in Python's backtracking order: each `?` prefers one character
over none, `{3,4}` prefers four digits over three. -/
def matchHere (l : List Char) : Option (List Char) :=
  (tryAlt true 4 true l) <|> (tryAlt true 4 false l) <|>
  (tryAlt true 3 true l) <|> (tryAlt true 3 false l) <|>
  (tryAlt false 4 true l) <|> (tryAlt false 4 false l) <|>
  (tryAlt false 3 true l) <|> (tryAlt false 3 false l)

/-- The fixed redaction marker `'[REDACTED]'`. -/
def redactedMarker : String :=
  "[REDACTED]"

/-- The `re.sub` scan.  `prevW` records whether the character before the
current position is a word character (for the leading `\b`; the pattern can
only start on a digit preceded by a non-word character or the start of the
input).  On a match the marker is emitted and scanning resumes after the
matched extent; otherwise the character is copied.  `fuel` is a termination
device only: every step consumes at least one character, so any
`fuel ≥ l.length` computes the full scan (`subScanF_fuel_indep`). -/
def subScanF : Nat → Bool → List Char → List Char
  | 0, _, l => l
  | _ + 1, _, [] => []
  | fuel + 1, prevW, c :: l =>
    if !prevW && isDigitChar c then
      match matchHere (c :: l) with
      | some rest => redactedMarker.data ++ subScanF fuel true rest
      | none => c :: subScanF fuel (isWordChar c) l
    else
      c :: subScanF fuel (isWordChar c) l

/-- Embeds `simulate_heavy_processing` of `src/worker/main.py`.  The
`time.sleep` call changes wall-clock time only, never the result, and the
print is a log line; the returned value is exactly
`re.sub(r'\b\d{3}[-.\s]?\d{3,4}[-.\s]?\d{4}\b', '[REDACTED]', text)`. -/
def simulate_heavy_processing (text : String) : String :=
  String.mk (subScanF text.data.length false text.data)

/-! ### Sanity: the fuel never runs out -/

theorem dropDigits_length : ∀ (n : Nat) (l l' : List Char),
    dropDigits n l = some l' → l'.length + n = l.length := by
  intro n
  induction n with
  | zero => intro l l' h; simp [dropDigits] at h; simp [h]
  | succ n ih =>
    intro l l' h
    cases l with
    | nil => simp [dropDigits] at h
    | cons c l =>
      simp only [dropDigits] at h
      by_cases hc : isDigitChar c = true
      · simp [hc] at h
        have := ih l l' h
        simp [List.length]
        omega
      · simp [hc] at h

theorem dropSep_length : ∀ (b : Bool) (l l' : List Char),
    dropSep b l = some l' → l'.length ≤ l.length := by
  intro b l l' h
  cases b with
  | false => simp [dropSep] at h; simp [h]
  | true =>
    cases l with
    | nil => simp [dropSep] at h
    | cons c l =>
      simp only [dropSep] at h
      by_cases hc : isSepChar c = true
      · simp [hc] at h; simp [h]
      · simp [hc] at h

theorem tryAlt_length (s1 : Bool) (n2 : Nat) (s2 : Bool) (l l' : List Char)
    (h : tryAlt s1 n2 s2 l = some l') : l'.length + 7 + n2 ≤ l.length := by
  simp only [tryAlt, Option.bind_eq_some] at h
  obtain ⟨l1, h1, l2, h2, l3, h3, l4, h4, l5, h5, h6⟩ := h
  have e1 := dropDigits_length 3 l l1 h1
  have e2 := dropSep_length s1 l1 l2 h2
  have e3 := dropDigits_length n2 l2 l3 h3
  have e4 := dropSep_length s2 l3 l4 h4
  have e5 := dropDigits_length 4 l4 l5 h5
  have e6 : l' = l5 := by
    by_cases hb : endBoundary l5 = true
    · simp [hb] at h6; simp [h6]
    · simp [hb] at h6
  subst e6
  omega

theorem matchHere_length (l l' : List Char) (h : matchHere l = some l') :
    l'.length + 10 ≤ l.length := by
  have key : ∀ (s1 : Bool) (n2 : Nat) (s2 : Bool), 3 ≤ n2 →
      tryAlt s1 n2 s2 l = some l' → l'.length + 10 ≤ l.length := by
    intro s1 n2 s2 hn hh
    have := tryAlt_length s1 n2 s2 l l' hh
    omega
  unfold matchHere at h
  rw [Option.orElse_eq_some] at h
  rcases h with h | ⟨_, h⟩
  · exact key true 4 true (by omega) h
  rw [Option.orElse_eq_some] at h
  rcases h with h | ⟨_, h⟩
  · exact key true 4 false (by omega) h
  rw [Option.orElse_eq_some] at h
  rcases h with h | ⟨_, h⟩
  · exact key true 3 true (by omega) h
  rw [Option.orElse_eq_some] at h
  rcases h with h | ⟨_, h⟩
  · exact key true 3 false (by omega) h
  rw [Option.orElse_eq_some] at h
  rcases h with h | ⟨_, h⟩
  · exact key false 4 true (by omega) h
  rw [Option.orElse_eq_some] at h
  rcases h with h | ⟨_, h⟩
  · exact key false 4 false (by omega) h
  rw [Option.orElse_eq_some] at h
  rcases h with h | ⟨_, h⟩
  · exact key false 3 true (by omega) h
  · exact key false 3 false (by omega) h

/-- Any two sufficient fuels give the same scan: the fuel in
`simulate_heavy_processing` is only a termination device. -/
theorem subScanF_fuel_indep : ∀ (f1 f2 : Nat) (b : Bool) (l : List Char),
    l.length ≤ f1 → l.length ≤ f2 → subScanF f1 b l = subScanF f2 b l := by
  intro f1
  induction f1 with
  | zero =>
    intro f2 b l h1 _
    have : l = [] := List.length_eq_zero.1 (Nat.le_zero.1 h1)
    subst this
    cases f2 <;> rfl
  | succ f ih =>
    intro f2 b l h1 h2
    cases l with
    | nil => cases f2 <;> rfl
    | cons c l =>
      cases f2 with
      | zero => simp at h2
      | succ g =>
        simp only [List.length_cons] at h1 h2
        simp only [subScanF]
        by_cases hguard : (!b && isDigitChar c) = true
        · rw [if_pos hguard, if_pos hguard]
          cases hm : matchHere (c :: l) with
          | none =>
            simp only [hm]
            exact congrArg (c :: ·) (ih g (isWordChar c) l (by omega) (by omega))
          | some rest =>
            have hlen := matchHere_length (c :: l) rest hm
            simp only [List.length_cons] at hlen
            simp only [hm]
            exact congrArg (redactedMarker.data ++ ·)
              (ih g true rest (by omega) (by omega))
        · rw [if_neg hguard, if_neg hguard]
          exact congrArg (c :: ·) (ih g (isWordChar c) l (by omega) (by omega))

/-! ## Data model

`NormalizedRecord` is the canonical wire format built by the Gateway.
`datetime.utcnow().isoformat()` is passed in as the string parameter
`nowIso`; the code appends `"Z"` to it. -/

structure NormalizedRecord where
  tenant_id : String
  log_id : String
  text : String
  source : String
  received_at : String
deriving DecidableEq, Repr

/-- Embeds `normalize_to_internal_format` of `src/api/main.py`. -/
def normalize_to_internal_format (tenant_id log_id text source : String)
    (nowIso : String) : NormalizedRecord :=
  { tenant_id := tenant_id
    log_id := log_id
    text := text
    source := source
    received_at := nowIso ++ "Z" }

/-- A parsed JSON object body as the Gateway reads it: each field is `none`
when the key is absent and `some v` when present with string value `v`
(`data.get(k)` returns `None` for an absent key). -/
structure JsonBody where
  tenant_id : Option String
  log_id : Option String
  text : Option String
deriving DecidableEq, Repr

/-- An ingest request as dispatched on `request.content_type`:
* `jsonReq none` — JSON content type but `request.get_json()` is falsy
  (`if not data`);
* `jsonReq (some body)` — JSON content type with a truthy parsed object;
* `textReq hdr body` — plain-text content type, `hdr` the `X-Tenant-ID`
  header (`none` when absent) and `body` the raw text;
* `unsupportedReq` — any other content type. -/
inductive IngestRequest where
  | jsonReq : Option JsonBody → IngestRequest
  | textReq : Option String → String → IngestRequest
  | unsupportedReq : IngestRequest
deriving DecidableEq, Repr

/-- Python truthiness test `not x` for an optional string:
true on `None` and on the empty string. -/
def falsy : Option String → Bool
  | none => true
  | some s => s == ""

/-- Observable outcome of one `ingest` call: the HTTP status, the `error`
field of the JSON response (when any), and the record handed to
`publish_to_pubsub` (`none` when no publish call is made). -/
structure IngestOutcome where
  status : Nat
  errorMsg : Option String
  published : Option NormalizedRecord
deriving DecidableEq, Repr

/-- Embeds the `ingest` handler of `src/api/main.py`.  `freshId` stands for
the `str(uuid.uuid4())` drawn by the handler and `nowIso` for
`datetime.utcnow().isoformat()` at normalization time.  The publish itself
is modelled as succeeding (the bus is an external collaborator); no claim
concerns the `except` path. -/
def ingest (req : IngestRequest) (freshId : String) (nowIso : String) :
    IngestOutcome :=
  match req with
  | .jsonReq none => ⟨400, some "Invalid JSON payload", none⟩
  | .jsonReq (some data) =>
    if falsy data.tenant_id then ⟨400, some "Missing tenant_id", none⟩
    else if falsy data.text then ⟨400, some "Missing text", none⟩
    else
      let log_id := data.log_id.getD freshId
      ⟨202, none,
        some (normalize_to_internal_format (data.tenant_id.getD "") log_id
          (data.text.getD "") "json_upload" nowIso)⟩
  | .textReq hdr body =>
    if falsy hdr then ⟨400, some "Missing X-Tenant-ID header", none⟩
    else if body == "" then ⟨400, some "Empty text payload", none⟩
    else
      ⟨202, none,
        some (normalize_to_internal_format (hdr.getD "") freshId body
          "text_upload" nowIso)⟩
  | .unsupportedReq =>
    ⟨415, some "Unsupported Content-Type. Use application/json or text/plain",
      none⟩

/-! ## Consumer -/

/-- The decoded message dictionary as the Consumer reads it with
`message.get(k)`: `none` models an absent key. -/
structure MessageDict where
  tenant_id : Option String
  log_id : Option String
  text : Option String
  source : Option String
  received_at : Option String
deriving DecidableEq, Repr

/-- Result of `base64.b64decode`, `.decode("utf-8")` and `json.loads` on the
envelope's data field: `ok m` when the whole chain succeeds and yields the
object `m`; `err` when any step raises (invalid base64, invalid UTF-8, or
text that is not valid JSON), which lands in the handler's `except` block. -/
inductive DecodeResult where
  | ok : MessageDict → DecodeResult
  | err : DecodeResult
deriving DecidableEq, Repr

/-- A delivery as the Consumer dispatches on it:
* `emptyBody` — `request.get_json()` falsy (`if not envelope`);
* `noMessage` — JSON without a `message` key;
* `messageNoData` — a `message` without a `data` key;
* `messageWithData d` — a `message` whose `data` decodes per `d`. -/
inductive Envelope where
  | emptyBody : Envelope
  | noMessage : Envelope
  | messageNoData : Envelope
  | messageWithData : DecodeResult → Envelope
deriving DecidableEq, Repr

/-- The document written by `save_to_firestore`, with exactly the six keys
the code puts in `doc_data`.  `received_at` is optional because the handler
passes `message.get("received_at")` through, which may be `None`. -/
structure ProcessedDoc where
  source : String
  original_text : String
  modified_data : String
  processed_at : String
  received_at : Option String
  text_length : Nat
deriving DecidableEq, Repr

/-- One Firestore write: the document path (as the list of collection and
document segments of `db.collection(..).document(..)...`) and the data. -/
structure StoreWrite where
  path : List String
  doc : ProcessedDoc
deriving DecidableEq, Repr

/-- Embeds `save_to_firestore` of `src/worker/main.py`.  `nowIso` stands for
`datetime.utcnow().isoformat()` at save time. -/
def save_to_firestore (tenant_id log_id original_text modified_text
    source : String) (received_at : Option String) (nowIso : String) :
    StoreWrite :=
  { path := ["tenants", tenant_id, "processed_logs", log_id]
    doc :=
      { source := source
        original_text := original_text
        modified_data := modified_text
        processed_at := nowIso ++ "Z"
        received_at := received_at
        text_length := original_text.length } }

/-- Observable outcome of one delivery: the HTTP status and the Firestore
write performed (`none` when nothing was written). -/
structure ConsumerOutcome where
  status : Nat
  write : Option StoreWrite
deriving DecidableEq, Repr

/-- Embeds the `process_pubsub` handler of `src/worker/main.py`.  `nowIso`
stands for `datetime.utcnow().isoformat()` at save time.  A decode
exception reaches the outer `except` and returns 500; the explicit checks
return 400; the store write is modelled as succeeding (the store is an
external collaborator). -/
def process_pubsub (env : Envelope) (nowIso : String) : ConsumerOutcome :=
  match env with
  | .emptyBody => ⟨400, none⟩
  | .noMessage => ⟨400, none⟩
  | .messageNoData => ⟨400, none⟩
  | .messageWithData .err => ⟨500, none⟩
  | .messageWithData (.ok m) =>
    if falsy m.tenant_id || falsy m.log_id || falsy m.text || falsy m.source then
      ⟨400, none⟩
    else
      let text := m.text.getD ""
      let modified := simulate_heavy_processing text
      ⟨200,
        some (save_to_firestore (m.tenant_id.getD "") (m.log_id.getD "") text
          modified (m.source.getD "") m.received_at nowIso)⟩

/-! ## Helper lemmas -/

theorem falsy_some_false {s : String} (h : s ≠ "") : falsy (some s) = false := by
  simp [falsy, h]

theorem falsy_eq_false_iff (o : Option String) :
    falsy o = false ↔ ∃ s, o = some s ∧ s ≠ "" := by
  cases o with
  | none => simp [falsy]
  | some s => simp [falsy]

theorem append_Z_ne_empty (s : String) : s ++ "Z" ≠ "" := by
  intro h
  have hl := congrArg String.length h
  simp [String.length_append] at hl
  exact absurd hl.2 (by decide)

/-- No position of `l` starts a match of the redaction pattern body. -/
def noMatchScan : List Char → Bool
  | [] => true
  | c :: l => (matchHere (c :: l)).isNone && noMatchScan l

/-- Every character is in the ASCII range, on which the embedded character
classes agree exactly with Python's Unicode `\d`, `\w` and `\s`. -/
def allAscii (l : List Char) : Bool :=
  l.all fun c => c.toNat < 128

theorem subScanF_of_noMatch : ∀ (l : List Char) (fuel : Nat) (b : Bool),
    l.length ≤ fuel → noMatchScan l = true → subScanF fuel b l = l := by
  intro l
  induction l with
  | nil => intro fuel b _ _; cases fuel <;> rfl
  | cons c l ih =>
    intro fuel b hf hn
    cases fuel with
    | zero => simp at hf
    | succ f =>
      simp only [noMatchScan, Bool.and_eq_true, Option.isNone_iff_eq_none] at hn
      obtain ⟨hm, hrest⟩ := hn
      simp only [List.length_cons] at hf
      simp only [subScanF]
      by_cases hguard : (!b && isDigitChar c) = true
      · rw [if_pos hguard, hm]
        exact congrArg (c :: ·) (ih f (isWordChar c) (by omega) hrest)
      · rw [if_neg hguard]
        exact congrArg (c :: ·) (ih f (isWordChar c) (by omega) hrest)

/-! ## Claims -/

/-- Claim C1: delivering the same NormalizedRecord twice (with possibly
different wall clocks at save time) stores documents identical in `source`,
`original_text`, `modified_data`, `text_length` — and also `received_at` and
the store path; only `processed_at` may differ between the two attempts. -/
theorem c1_redelivery_idempotent (t l x src : String) (ra : Option String)
    (now1 now2 : String) (ht : t ≠ "") (hl : l ≠ "") (hx : x ≠ "")
    (hs : src ≠ "") :
    ∃ w1 w2,
      (process_pubsub
        (.messageWithData (.ok ⟨some t, some l, some x, some src, ra⟩))
        now1).write = some w1 ∧
      (process_pubsub
        (.messageWithData (.ok ⟨some t, some l, some x, some src, ra⟩))
        now2).write = some w2 ∧
      w1.doc.source = w2.doc.source ∧
      w1.doc.original_text = w2.doc.original_text ∧
      w1.doc.modified_data = w2.doc.modified_data ∧
      w1.doc.text_length = w2.doc.text_length ∧
      w1.doc.received_at = w2.doc.received_at ∧
      w1.path = w2.path := by
  have h1 := falsy_some_false ht
  have h2 := falsy_some_false hl
  have h3 := falsy_some_false hx
  have h4 := falsy_some_false hs
  refine ⟨save_to_firestore t l x (simulate_heavy_processing x) src ra now1,
          save_to_firestore t l x (simulate_heavy_processing x) src ra now2,
          ?_, ?_, rfl, rfl, rfl, rfl, rfl, rfl⟩ <;>
    simp [process_pubsub, h1, h2, h3, h4]

/-- Witness for C1 at a concrete record and two distinct save times. -/
theorem c1_redelivery_idempotent_witness :
    ∃ w1 w2,
      (process_pubsub
        (.messageWithData (.ok ⟨some "acme", some "log-1",
          some "hi 555.123.4567", some "json_upload", some "R"⟩))
        "P1").write = some w1 ∧
      (process_pubsub
        (.messageWithData (.ok ⟨some "acme", some "log-1",
          some "hi 555.123.4567", some "json_upload", some "R"⟩))
        "P2").write = some w2 ∧
      w1.doc.source = w2.doc.source ∧
      w1.doc.original_text = w2.doc.original_text ∧
      w1.doc.modified_data = w2.doc.modified_data ∧
      w1.doc.text_length = w2.doc.text_length ∧
      w1.doc.received_at = w2.doc.received_at ∧
      w1.path = w2.path :=
  c1_redelivery_idempotent "acme" "log-1" "hi 555.123.4567" "json_upload"
    (some "R") "P1" "P2" (by decide) (by decide) (by decide) (by decide)

/-- Claim C2 (code bug): the spec's end-to-end scenario expects
`modified_data = "ping [REDACTED] please"` for the input
`"ping 555-0199 please"`, and the code's own comment lists `555-0199` as a
matched format; but the regex `\b\d{3}[-.\s]?\d{3,4}[-.\s]?\d{4}\b` needs at
least ten digits, so `555-0199` (seven digits) is not matched and the text
is stored unredacted.  The `text_length = 20` part does hold. -/
theorem c2_bug_short_phone_not_redacted :
    simulate_heavy_processing "ping 555-0199 please" = "ping 555-0199 please" ∧
    "ping 555-0199 please" ≠ "ping [REDACTED] please" ∧
    ("ping 555-0199 please" : String).length = 20 ∧
    process_pubsub (.messageWithData (.ok ⟨some "acme", some "log-1",
        some "ping 555-0199 please", some "json_upload", some "R"⟩)) "P" =
      ⟨200, some ⟨["tenants", "acme", "processed_logs", "log-1"],
        ⟨"json_upload", "ping 555-0199 please", "ping 555-0199 please", "PZ",
          some "R", 20⟩⟩⟩ := by
  decide

/-- The deliveries for which `process_pubsub` performs its explicit
validation checks: falsy body, missing `message`, missing `data`, or a
decoded record with a falsy `tenant_id`, `log_id`, `text` or `source`. -/
def checkedMalformed (env : Envelope) : Prop :=
  env = .emptyBody ∨ env = .noMessage ∨ env = .messageNoData ∨
    ∃ m, env = .messageWithData (.ok m) ∧
      (falsy m.tenant_id || falsy m.log_id || falsy m.text || falsy m.source)
        = true

/-- Claim C3 counterexample: a delivery whose payload data does not decode
(invalid base64, UTF-8 or JSON) reaches the handler's `except` block and
returns 500, the retryable signal — not the 400 the claim states; and a
record missing only `received_at` is not rejected at all but processed with
status 200, because the required-field check covers only `tenant_id`,
`log_id`, `text` and `source`. -/
theorem c3_counterexample_decode_failure_is_500 :
    (process_pubsub (.messageWithData .err) "P").status = 500 ∧
    (500 : Nat) ≠ 400 ∧
    (process_pubsub (.messageWithData (.ok ⟨some "acme", some "log-1",
        some "hi", some "json_upload", none⟩)) "P").status = 200 := by
  decide

/-- Claim C3 as amended: deliveries failing the handler's explicit checks
(missing message wrapper, missing data field, or a decoded record with
missing or empty `tenant_id`, `log_id`, `text` or `source` — `received_at`
is not checked) get 400 and no write; a payload that fails base64/UTF-8
decoding or JSON parsing gets 500 (the retryable signal) and no write. -/
theorem c3_amended_malformed_signals (env : Envelope) (nowIso : String) :
    (checkedMalformed env →
      (process_pubsub env nowIso).status = 400 ∧
      (process_pubsub env nowIso).write = none) ∧
    (env = .messageWithData .err →
      (process_pubsub env nowIso).status = 500 ∧
      (process_pubsub env nowIso).write = none) := by
  constructor
  · intro h
    rcases h with rfl | rfl | rfl | ⟨m, rfl, hm⟩
    · exact ⟨rfl, rfl⟩
    · exact ⟨rfl, rfl⟩
    · exact ⟨rfl, rfl⟩
    · simp [process_pubsub, hm]
  · rintro rfl
    exact ⟨rfl, rfl⟩

/-- Witness for C3 (amended) at an empty delivery body. -/
theorem c3_amended_malformed_signals_witness :
    (process_pubsub .emptyBody "P").status = 400 ∧
    (process_pubsub .emptyBody "P").write = none :=
  (c3_amended_malformed_signals .emptyBody "P").1 (Or.inl rfl)

/-- Claim C4 counterexample: a structured request that explicitly supplies
`log_id = ""` passes validation (only `tenant_id` and `text` are checked)
and `data.get("log_id", uuid)` keeps the present empty value, so the
Gateway publishes a record whose `log_id` is empty — the claim's "every
field non-empty, including structured requests that supply `log_id`
explicitly" fails. -/
theorem c4_counterexample_explicit_empty_log_id :
    ((ingest (.jsonReq (some ⟨some "acme", some "", some "hello"⟩))
        "fresh-id" "G").published.map NormalizedRecord.log_id) = some "" ∧
    (ingest (.jsonReq (some ⟨some "acme", some "", some "hello"⟩))
        "fresh-id" "G").status = 202 := by
  decide

/-- Claim C4 as amended: every record the Gateway publishes has all five
fields, with `tenant_id`, `text`, `source` and `received_at` non-empty
(assuming the generated identifier is non-empty, as a UUID4 string always
is); `log_id` is non-empty as well unless the structured request explicitly
supplied an empty `log_id`, which validation does not reject. -/
theorem c4_amended_published_fields (req : IngestRequest)
    (freshId nowIso : String) (r : NormalizedRecord) (hf : freshId ≠ "")
    (h : (ingest req freshId nowIso).published = some r) :
    r.tenant_id ≠ "" ∧ r.text ≠ "" ∧ r.source ≠ "" ∧ r.received_at ≠ "" ∧
    (r.log_id ≠ "" ∨ ∃ b, req = .jsonReq (some b) ∧ b.log_id = some "") := by
  cases req with
  | jsonReq ob =>
    cases ob with
    | none => simp [ingest] at h
    | some b =>
      cases hft : falsy b.tenant_id with
      | true => simp [ingest, hft] at h
      | false =>
        cases hfx : falsy b.text with
        | true => simp [ingest, hft, hfx] at h
        | false =>
          simp only [ingest, hft, hfx, Bool.false_eq_true, if_false,
            Option.some.injEq] at h
          obtain ⟨t, hto, htne⟩ := (falsy_eq_false_iff _).1 hft
          obtain ⟨x, hxo, hxne⟩ := (falsy_eq_false_iff _).1 hfx
          subst h
          refine ⟨by simp [normalize_to_internal_format, hto, htne],
                  by simp [normalize_to_internal_format, hxo, hxne],
                  by simp [normalize_to_internal_format],
                  append_Z_ne_empty nowIso, ?_⟩
          cases hbl : b.log_id with
          | none =>
            left
            simp [normalize_to_internal_format, hbl, hf]
          | some v =>
            by_cases hv : v = ""
            · right
              exact ⟨b, rfl, by rw [hbl, hv]⟩
            · left
              simp [normalize_to_internal_format, hbl, hv]
  | textReq hdr body =>
    cases hfh : falsy hdr with
    | true => simp [ingest, hfh] at h
    | false =>
      cases hfb : (body == "") with
      | true => simp [ingest, hfh, hfb] at h
      | false =>
        simp only [ingest, hfh, hfb, Bool.false_eq_true, if_false,
          Option.some.injEq] at h
        obtain ⟨t, hto, htne⟩ := (falsy_eq_false_iff _).1 hfh
        subst h
        exact ⟨by simp [normalize_to_internal_format, hto, htne],
               by simpa [normalize_to_internal_format] using
                 beq_eq_false_iff_ne.mp hfb,
               by simp [normalize_to_internal_format],
               append_Z_ne_empty nowIso,
               Or.inl (by simp [normalize_to_internal_format, hf])⟩
  | unsupportedReq => simp [ingest] at h

/-- Witness for C4 (amended) at a structured request without `log_id`. -/
theorem c4_amended_published_fields_witness :
    (NormalizedRecord.mk "acme" "fresh-id" "hi" "json_upload" "GZ").tenant_id
        ≠ "" ∧
    (NormalizedRecord.mk "acme" "fresh-id" "hi" "json_upload" "GZ").text
        ≠ "" ∧
    (NormalizedRecord.mk "acme" "fresh-id" "hi" "json_upload" "GZ").source
        ≠ "" ∧
    (NormalizedRecord.mk "acme" "fresh-id" "hi" "json_upload" "GZ").received_at
        ≠ "" ∧
    ((NormalizedRecord.mk "acme" "fresh-id" "hi" "json_upload" "GZ").log_id
        ≠ "" ∨
      ∃ b, IngestRequest.jsonReq (some ⟨some "acme", none, some "hi"⟩)
          = .jsonReq (some b) ∧ b.log_id = some "") :=
  c4_amended_published_fields (.jsonReq (some ⟨some "acme", none, some "hi"⟩))
    "fresh-id" "G" (NormalizedRecord.mk "acme" "fresh-id" "hi" "json_upload" "GZ")
    (by decide) (by decide)

/-- The ingest requests the Gateway's validation rejects: falsy JSON body,
missing or empty `tenant_id` or `text` (structured), missing or empty
tenant header or empty body (raw), or an unsupported content type. -/
def invalidIngest : IngestRequest → Prop
  | .jsonReq none => True
  | .jsonReq (some b) => falsy b.tenant_id = true ∨ falsy b.text = true
  | .textReq hdr body => falsy hdr = true ∨ body = ""
  | .unsupportedReq => True

/-- Claim C5: every ingest request that fails validation gets a client
error (400 or 415) and no publish call is made. -/
theorem c5_validation_failure_no_publish (req : IngestRequest)
    (freshId nowIso : String) (h : invalidIngest req) :
    ((ingest req freshId nowIso).status = 400 ∨
      (ingest req freshId nowIso).status = 415) ∧
    (ingest req freshId nowIso).published = none := by
  cases req with
  | jsonReq ob =>
    cases ob with
    | none => exact ⟨Or.inl rfl, rfl⟩
    | some b =>
      rcases h with h | h
      · simp [ingest, h]
      · cases hft : falsy b.tenant_id with
        | true => simp [ingest, hft]
        | false => simp [ingest, hft, h]
  | textReq hdr body =>
    rcases h with h | h
    · simp [ingest, h]
    · cases hfh : falsy hdr with
      | true => simp [ingest, hfh]
      | false => simp [ingest, hfh, h]
  | unsupportedReq => exact ⟨Or.inr rfl, rfl⟩

/-- Witness for C5 at an unsupported content type. -/
theorem c5_validation_failure_no_publish_witness :
    ((ingest .unsupportedReq "fresh-id" "G").status = 400 ∨
      (ingest .unsupportedReq "fresh-id" "G").status = 415) ∧
    (ingest .unsupportedReq "fresh-id" "G").published = none :=
  c5_validation_failure_no_publish .unsupportedReq "fresh-id" "G" trivial

/-- Claim C6 (code bug): the spec (and the code's own comment, which lists
`(555) 123-4567` as a matched format) include an optional parenthesized
leading group, but the regex `\b\d{3}[-.\s]?\d{3,4}[-.\s]?\d{4}\b` has no
parenthesized alternative: after `555` the `)` matches no separator, and
the remaining `123-4567` alone has only seven digits, so
`(555) 123-4567` passes through unchanged.  Hyphen, period, whitespace and
absent separators are redacted as described. -/
theorem c6_bug_paren_format_not_redacted :
    simulate_heavy_processing "(555) 123-4567" = "(555) 123-4567" ∧
    "(555) 123-4567" ≠ "[REDACTED]" ∧
    simulate_heavy_processing "555-123-4567" = "[REDACTED]" ∧
    simulate_heavy_processing "555.123.4567" = "[REDACTED]" ∧
    simulate_heavy_processing "555 123 4567" = "[REDACTED]" ∧
    simulate_heavy_processing "5551234567" = "[REDACTED]" := by
  decide

/-- Claim C7: the Transform is deterministic (it is a pure function of the
text — `re.sub` with a fixed pattern; the sleep affects time only),
`"call 555-123-4567 now"` is redacted to `"call [REDACTED] now"`,
`"room 4567"` is returned unchanged (too few digits to match), and any
ASCII input in which no position matches the phone pattern is returned
unchanged.  The no-match statement is restricted to ASCII strings because
on those the embedded character classes agree with Python's Unicode
`\d`/`\w`/`\s` exactly; outside ASCII, Python can match separators and
digits this embedding does not model. -/
theorem c7_transform_examples (s : String) :
    simulate_heavy_processing "call 555-123-4567 now" = "call [REDACTED] now" ∧
    simulate_heavy_processing "room 4567" = "room 4567" ∧
    simulate_heavy_processing s = simulate_heavy_processing s ∧
    (allAscii s.data = true → noMatchScan s.data = true →
      simulate_heavy_processing s = s) := by
  refine ⟨by decide, by decide, rfl, fun _ h => ?_⟩
  unfold simulate_heavy_processing
  rw [subScanF_of_noMatch s.data s.data.length false le_rfl h]

/-- Witness for C7 at an ASCII input with no phone-shaped substring. -/
theorem c7_transform_examples_witness :
    simulate_heavy_processing "hello world" = "hello world" :=
  (c7_transform_examples "hello world").2.2.2 (by decide) (by decide)

/-- Claim C8: a structured request with missing or empty `tenant_id` gets
400 with the reason `Missing tenant_id` (naming the tenant field), a
raw-text request with a missing or empty `X-Tenant-ID` header gets 400 with
the reason `Missing X-Tenant-ID header` (naming the header), and any other
content type gets 415. -/
theorem c8_gateway_error_statuses (b : JsonBody) (hdr : Option String)
    (body freshId nowIso : String) :
    (falsy b.tenant_id = true →
      ingest (.jsonReq (some b)) freshId nowIso
        = ⟨400, some "Missing tenant_id", none⟩) ∧
    (falsy hdr = true →
      ingest (.textReq hdr body) freshId nowIso
        = ⟨400, some "Missing X-Tenant-ID header", none⟩) ∧
    (ingest .unsupportedReq freshId nowIso).status = 415 := by
  refine ⟨fun h => ?_, fun h => ?_, rfl⟩
  · simp [ingest, h]
  · simp [ingest, h]

/-- Witness for C8 at concrete invalid requests. -/
theorem c8_gateway_error_statuses_witness :
    ingest (.jsonReq (some ⟨none, none, some "hi"⟩)) "fresh-id" "G"
      = ⟨400, some "Missing tenant_id", none⟩ ∧
    ingest (.textReq none "hi") "fresh-id" "G"
      = ⟨400, some "Missing X-Tenant-ID header", none⟩ ∧
    (ingest .unsupportedReq "fresh-id" "G").status = 415 :=
  ⟨(c8_gateway_error_statuses ⟨none, none, some "hi"⟩ none "hi" "fresh-id"
      "G").1 (by decide),
   (c8_gateway_error_statuses ⟨none, none, some "hi"⟩ none "hi" "fresh-id"
      "G").2.1 (by decide),
   (c8_gateway_error_statuses ⟨none, none, some "hi"⟩ none "hi" "fresh-id"
      "G").2.2⟩

/-- Claim C9: a successfully processed delivery is written under the path
`tenants/{tenant_id}/processed_logs/{log_id}` (two-level, tenant-first),
and the document has exactly the fields `source`, `original_text`,
`modified_data`, `processed_at`, `received_at`, `text_length`, with
`original_text` the record's text and `modified_data` its Transform. -/
theorem c9_store_path_and_document (t l x src : String) (ra : Option String)
    (nowIso : String) (ht : t ≠ "") (hl : l ≠ "") (hx : x ≠ "")
    (hs : src ≠ "") :
    process_pubsub (.messageWithData (.ok ⟨some t, some l, some x, some src,
        ra⟩)) nowIso =
      ⟨200, some
        { path := ["tenants", t, "processed_logs", l]
          doc :=
            { source := src
              original_text := x
              modified_data := simulate_heavy_processing x
              processed_at := nowIso ++ "Z"
              received_at := ra
              text_length := x.length } }⟩ := by
  have h1 := falsy_some_false ht
  have h2 := falsy_some_false hl
  have h3 := falsy_some_false hx
  have h4 := falsy_some_false hs
  simp [process_pubsub, h1, h2, h3, h4, save_to_firestore]

/-- Witness for C9 at a concrete delivery. -/
theorem c9_store_path_and_document_witness :
    process_pubsub (.messageWithData (.ok ⟨some "acme", some "log-1",
        some "hi", some "text_upload", some "R"⟩)) "P" =
      ⟨200, some
        { path := ["tenants", "acme", "processed_logs", "log-1"]
          doc :=
            { source := "text_upload"
              original_text := "hi"
              modified_data := simulate_heavy_processing "hi"
              processed_at := "P" ++ "Z"
              received_at := some "R"
              text_length := ("hi" : String).length } }⟩ :=
  c9_store_path_and_document "acme" "log-1" "hi" "text_upload" (some "R") "P"
    (by decide) (by decide) (by decide) (by decide)

/-- Claim C10: `received_at` is set exactly once, at Gateway normalization
time (every published record carries the Gateway's clock reading plus
`"Z"`), and the Consumer stores it exactly as it appears in the decoded
record, unchanged. -/
theorem c10_received_at_set_once (req : IngestRequest)
    (freshId nowGw : String) (r : NormalizedRecord) (m : MessageDict)
    (nowWk : String) (w : StoreWrite) :
    ((ingest req freshId nowGw).published = some r →
      r.received_at = nowGw ++ "Z") ∧
    ((process_pubsub (.messageWithData (.ok m)) nowWk).write = some w →
      w.doc.received_at = m.received_at) := by
  constructor
  · intro h
    cases req with
    | jsonReq ob =>
      cases ob with
      | none => simp [ingest] at h
      | some b =>
        cases hft : falsy b.tenant_id with
        | true => simp [ingest, hft] at h
        | false =>
          cases hfx : falsy b.text with
          | true => simp [ingest, hft, hfx] at h
          | false =>
            simp only [ingest, hft, hfx, Bool.false_eq_true, if_false,
              Option.some.injEq] at h
            subst h
            rfl
    | textReq hdr body =>
      cases hfh : falsy hdr with
      | true => simp [ingest, hfh] at h
      | false =>
        cases hfb : (body == "") with
        | true => simp [ingest, hfh, hfb] at h
        | false =>
          simp only [ingest, hfh, hfb, Bool.false_eq_true, if_false,
            Option.some.injEq] at h
          subst h
          rfl
    | unsupportedReq => simp [ingest] at h
  · intro h
    cases hfm : (falsy m.tenant_id || falsy m.log_id || falsy m.text ||
        falsy m.source) with
    | true => simp [process_pubsub, hfm] at h
    | false =>
      simp only [process_pubsub, hfm, Bool.false_eq_true, if_false,
        Option.some.injEq] at h
      subst h
      rfl

/-- Witness for C10 at a concrete request and a concrete delivery. -/
theorem c10_received_at_set_once_witness :
    ((NormalizedRecord.mk "acme" "fresh-id" "hi" "json_upload" "GZ").received_at
      = "G" ++ "Z") ∧
    ((save_to_firestore "acme" "log-1" "hi" (simulate_heavy_processing "hi")
        "json_upload" (some "GZ") "P").doc.received_at = some "GZ") :=
  ⟨(c10_received_at_set_once (.jsonReq (some ⟨some "acme", none, some "hi"⟩))
      "fresh-id" "G" (NormalizedRecord.mk "acme" "fresh-id" "hi" "json_upload" "GZ")
      ⟨some "acme", some "log-1", some "hi", some "json_upload", some "GZ"⟩
      "P" (save_to_firestore "acme" "log-1" "hi"
        (simulate_heavy_processing "hi") "json_upload" (some "GZ") "P")).1
      (by decide),
   (c10_received_at_set_once (.jsonReq (some ⟨some "acme", none, some "hi"⟩))
      "fresh-id" "G" (NormalizedRecord.mk "acme" "fresh-id" "hi" "json_upload" "GZ")
      ⟨some "acme", some "log-1", some "hi", some "json_upload", some "GZ"⟩
      "P" (save_to_firestore "acme" "log-1" "hi"
        (simulate_heavy_processing "hi") "json_upload" (some "GZ") "P")).2
      (by decide)⟩

end MemMach
